import Mathlib

/-!
Shallow embedding of the viewport tracking and scroll-follow subsystem of
`tui-textarea` (`src/widget.rs`), together with proofs of the spec's claims.

Machine integers are modelled as `Nat`:
* a `u16` value is a `Nat` that the theorems constrain to be `< 65536`;
* the packed `AtomicU64` word of `Viewport` is a `Nat` constrained to be
  `< 2^64`;
* Rust's plain `+` / `-` on `u16` (as used by `next_scroll_top`) is modelled
  with its release-mode two's-complement semantics, i.e. arithmetic modulo
  `2^16`;
* `saturating_add` / `saturating_sub` clamp at the bounds;
* `i16` deltas are modelled as `Int`; `(-delta) as u16` for a negative
  `delta` is `delta.natAbs` (this is exact for every `i16` value including
  `-32768`, whose negation wraps back to the bit pattern `0x8000 = 32768`).
-/

/-- `next_scroll_top` from `src/widget.rs` (lines 115–123), with Rust
release-mode `u16` arithmetic (wrap-around modulo `2^16`).  The source is

```
fn next_scroll_top(prev_top: u16, cursor: u16, length: u16) -> u16 {
    if cursor < prev_top {
        cursor
    } else if prev_top + length <= cursor {
        cursor + 1 - length
    } else {
        prev_top
    }
}
```

`cursor + 1 - length` evaluates as `((cursor + 1) mod 2^16) - length` with
wrapping subtraction, which for `length < 2^16` equals
`(cursor + 1 + (2^16 - length)) mod 2^16`. -/
def next_scroll_top (prev_top cursor length : Nat) : Nat :=
  if cursor < prev_top then
    cursor
  else if (prev_top + length) % 65536 ≤ cursor then
    (cursor + 1 + (65536 - length)) % 65536
  else
    prev_top

/-- Modelled from the spec: the scroll-follow contract of §4.2 / §8 with the
intermediate arithmetic "computed in a widened integer domain and the result
clamped back to the 16-bit range before storage".  No such widened
computation exists in `src/widget.rs`; this definition follows the spec's
words and is compared against `next_scroll_top` (the code) in claim C3. -/
def next_scroll_top_wide (prev_top cursor length : Nat) : Nat :=
  if cursor < prev_top then
    cursor
  else if prev_top + length ≤ cursor then
    min (cursor + 1 - length) 65535
  else
    prev_top

/-- Rust `u16::saturating_add`, clamping at `65535`. -/
def saturating_add_u16 (a b : Nat) : Nat := min (a + b) 65535

/-- Rust `u16::saturating_sub`; truncated `Nat` subtraction already clamps
at `0`. -/
def saturating_sub_u16 (a b : Nat) : Nat := a - b

/-- The `Viewport` of `src/widget.rs`: a single packed 64-bit word holding
`width, height, top_row, top_col` (most- to least-significant 16-bit
field).  The `AtomicU64` cell is modelled by explicit state passing. -/
structure Viewport where
  word : Nat
  deriving DecidableEq, Repr

/-- `Viewport::scroll_top` (lines 31–34): `((u >> 16) as u16, u as u16)`. -/
def Viewport.scroll_top (v : Viewport) : Nat × Nat :=
  ((v.word >>> 16) % 65536, v.word % 65536)

/-- `Viewport::rect` (lines 36–43): unpack `(row, col, width, height)`. -/
def Viewport.rect (v : Viewport) : Nat × Nat × Nat × Nat :=
  ((v.word >>> 16) % 65536, v.word % 65536,
   (v.word >>> 48) % 65536, (v.word >>> 32) % 65536)

/-- `Viewport::position` (lines 45–56): inclusive bounding box derived from
`rect` with saturating arithmetic and a final `max` on each axis. -/
def Viewport.position (v : Viewport) : Nat × Nat × Nat × Nat :=
  (v.rect.1, v.rect.2.1,
   max v.rect.1 (saturating_sub_u16 (saturating_add_u16 v.rect.1 v.rect.2.2.2) 1),
   max v.rect.2.1 (saturating_sub_u16 (saturating_add_u16 v.rect.2.1 v.rect.2.2.1) 1))

/-- `Viewport::store` (lines 58–63): pack the four `u16` fields into one
64-bit word.  The stored word replaces the whole previous state, so the
receiver is unused. -/
def Viewport.store (_v : Viewport) (row col width height : Nat) : Viewport :=
  ⟨(width <<< 48) ||| (height <<< 32) ||| (row <<< 16) ||| col⟩

/-- The inner `apply_scroll` of `Viewport::scroll` (lines 66–72).
`pos.saturating_add(delta as u16)` for `delta >= 0`, and
`pos.saturating_sub((-delta) as u16)` otherwise; `(-delta) as u16` is
`delta.natAbs` under release-mode `i16` semantics, exactly, including at
`delta = -32768`. -/
def apply_scroll (pos : Nat) (delta : Int) : Nat :=
  if 0 ≤ delta then saturating_add_u16 pos delta.toNat
  else saturating_sub_u16 pos delta.natAbs

/-- `Viewport::scroll` (lines 65–78): recompute the two top offsets and
splice them into the low 32 bits of the packed word, keeping the high
32 bits (`width`, `height`) via the mask `0xffff_ffff_0000_0000`. -/
def Viewport.scroll (v : Viewport) (rows cols : Int) : Viewport :=
  ⟨(v.word &&& 0xffffffff00000000)
    ||| (apply_scroll ((v.word >>> 16) % 65536) rows <<< 16)
    ||| apply_scroll (v.word % 65536) cols⟩

/-! ### Bridge lemmas: bitwise packing as arithmetic -/

/-- Or-ing a multiple of `2 ^ k` with a value below `2 ^ k` is addition:
the two operands occupy disjoint bit ranges. -/
theorem lor_eq_add_of_lt (a b k : Nat) (hb : b < 2 ^ k) :
    (2 ^ k * a) ||| b = 2 ^ k * a + b := by
  apply Nat.eq_of_testBit_eq
  intro i
  rw [Nat.testBit_lor]
  have hsh : 2 ^ k * a = a <<< k := by rw [Nat.shiftLeft_eq]; ring
  rcases lt_or_ge i k with h | h
  · have h1 : Nat.testBit (2 ^ k * a) i = false := by
      rw [hsh, Nat.testBit_shiftLeft]
      simp [Nat.not_le.mpr h]
    have h2 : 2 ^ k * a = 2 ^ i * (2 * (2 ^ (k - i - 1) * a)) := by
      have hk : i + 1 + (k - i - 1) = k := by omega
      calc 2 ^ k * a = 2 ^ (i + 1 + (k - i - 1)) * a := by rw [hk]
        _ = 2 ^ i * (2 * (2 ^ (k - i - 1) * a)) := by
            rw [pow_add, pow_add, pow_one]; ring
    rw [h1, Bool.false_or, Nat.testBit_to_div_mod, Nat.testBit_to_div_mod, h2,
        Nat.mul_add_div (Nat.two_pow_pos i)]
    rw [decide_eq_decide]
    omega
  · have hbf : Nat.testBit b i = false :=
      Nat.testBit_lt_two_pow (lt_of_lt_of_le hb (Nat.pow_le_pow_right (by norm_num) h))
    rw [hbf, Bool.or_false, Nat.testBit_to_div_mod, Nat.testBit_to_div_mod]
    have hei : (2:Nat) ^ i = 2 ^ k * 2 ^ (i - k) := by
      rw [← pow_add]; congr 1; omega
    rw [hei, ← Nat.div_div_eq_div_mul, ← Nat.div_div_eq_div_mul,
        Nat.mul_add_div (Nat.two_pow_pos k), Nat.div_eq_of_lt hb,
        Nat.mul_div_cancel_left a (Nat.two_pow_pos k), Nat.add_zero]

/-- The mask `0xffff_ffff_0000_0000` keeps exactly bits 32–63: and-ing with
it extracts the `width`/`height` half of the packed word. -/
theorem land_high_mask (u : Nat) :
    u &&& 0xffffffff00000000 = (u / 2 ^ 32 % 2 ^ 32) * 2 ^ 32 := by
  have hm : (0xffffffff00000000 : Nat) = (2 ^ 32 - 1) <<< 32 := by
    rw [Nat.shiftLeft_eq]; norm_num
  have hr : (u / 2 ^ 32 % 2 ^ 32) * 2 ^ 32 = ((u >>> 32) % 2 ^ 32) <<< 32 := by
    rw [Nat.shiftLeft_eq, Nat.shiftRight_eq_div_pow]
  apply Nat.eq_of_testBit_eq
  intro i
  rw [hm, hr, Nat.testBit_land, Nat.testBit_shiftLeft, Nat.testBit_shiftLeft,
      Nat.testBit_two_pow_sub_one, Nat.testBit_mod_two_pow, Nat.testBit_shiftRight]
  rcases lt_or_ge i 32 with h | h
  · have : ¬(i ≥ 32) := by omega
    simp [this]
  · have h32 : 32 + (i - 32) = i := by omega
    have : (i ≥ 32) := h
    simp [this, h32, Bool.and_comm]

/-- `apply_scroll` keeps the offset in `u16` range. -/
theorem apply_scroll_le (pos : Nat) (d : Int) (h : pos ≤ 65535) :
    apply_scroll pos d ≤ 65535 := by
  unfold apply_scroll saturating_add_u16 saturating_sub_u16
  split_ifs <;> omega

/-- The word packed by `Viewport::store` as plain arithmetic. -/
theorem store_word_eq (row col width height : Nat)
    (hr : row < 65536) (hc : col < 65536) (hh : height < 65536) :
    (width <<< 48) ||| (height <<< 32) ||| (row <<< 16) ||| col
      = width * 2 ^ 48 + height * 2 ^ 32 + row * 2 ^ 16 + col := by
  have e1 : (width <<< 48) ||| (height <<< 32)
      = 2 ^ 48 * width + height * 2 ^ 32 := by
    rw [Nat.shiftLeft_eq, Nat.shiftLeft_eq,
        show width * 2 ^ 48 = 2 ^ 48 * width from by ring]
    exact lor_eq_add_of_lt width (height * 2 ^ 32) 48 (by omega)
  have e2 : (width <<< 48) ||| (height <<< 32) ||| (row <<< 16)
      = 2 ^ 32 * (2 ^ 16 * width + height) + row * 2 ^ 16 := by
    rw [e1, Nat.shiftLeft_eq,
        show 2 ^ 48 * width + height * 2 ^ 32
           = 2 ^ 32 * (2 ^ 16 * width + height) from by ring]
    exact lor_eq_add_of_lt (2 ^ 16 * width + height) (row * 2 ^ 16) 32 (by omega)
  rw [e2, show 2 ^ 32 * (2 ^ 16 * width + height) + row * 2 ^ 16
        = 2 ^ 16 * (2 ^ 16 * (2 ^ 16 * width + height) + row) from by ring]
  rw [lor_eq_add_of_lt (2 ^ 16 * (2 ^ 16 * width + height) + row) col 16 (by omega)]
  ring

/-- The word produced by `Viewport::scroll` as plain arithmetic: the high
32 bits are preserved, the two new top offsets occupy the low 32 bits. -/
theorem scroll_word_eq (v : Viewport) (hv : v.word < 2 ^ 64) (rows cols : Int) :
    (v.scroll rows cols).word
      = (v.word / 2 ^ 32) * 2 ^ 32
        + apply_scroll ((v.word >>> 16) % 65536) rows * 2 ^ 16
        + apply_scroll (v.word % 65536) cols := by
  unfold Viewport.scroll
  have hrow : apply_scroll ((v.word >>> 16) % 65536) rows ≤ 65535 :=
    apply_scroll_le _ _ (by omega)
  have hcol : apply_scroll (v.word % 65536) cols ≤ 65535 :=
    apply_scroll_le _ _ (by omega)
  have hdiv : v.word / 2 ^ 32 % 2 ^ 32 = v.word / 2 ^ 32 :=
    Nat.mod_eq_of_lt (by omega)
  rw [land_high_mask, hdiv, Nat.shiftLeft_eq,
      show (v.word / 2 ^ 32) * 2 ^ 32
         = 2 ^ 32 * (v.word / 2 ^ 32) from by ring]
  rw [lor_eq_add_of_lt (v.word / 2 ^ 32)
        (apply_scroll ((v.word >>> 16) % 65536) rows * 2 ^ 16) 32 (by omega)]
  rw [show 2 ^ 32 * (v.word / 2 ^ 32)
         + apply_scroll ((v.word >>> 16) % 65536) rows * 2 ^ 16
       = 2 ^ 16 * (2 ^ 16 * (v.word / 2 ^ 32)
         + apply_scroll ((v.word >>> 16) % 65536) rows) from by ring]
  rw [lor_eq_add_of_lt _ (apply_scroll (v.word % 65536) cols) 16 (by omega)]

/-- `rect` of a freshly stored viewport recovers the four fields. -/
theorem store_rect (v : Viewport) (row col width height : Nat)
    (hr : row < 65536) (hc : col < 65536) (hw : width < 65536)
    (hh : height < 65536) :
    (v.store row col width height).rect = (row, col, width, height) := by
  simp only [Viewport.store, Viewport.rect]
  rw [store_word_eq row col width height hr hc hh]
  simp only [Nat.shiftRight_eq_div_pow, Prod.mk.injEq]
  refine ⟨?_, ?_, ?_, ?_⟩ <;> omega

/-- `rect` after `scroll`: the top offsets move by `apply_scroll`, width and
height are untouched. -/
theorem scroll_rect (v : Viewport) (hv : v.word < 2 ^ 64) (rows cols : Int) :
    (v.scroll rows cols).rect
      = (apply_scroll v.rect.1 rows, apply_scroll v.rect.2.1 cols,
         v.rect.2.2.1, v.rect.2.2.2) := by
  have h := scroll_word_eq v hv rows cols
  have hrow : apply_scroll ((v.word >>> 16) % 65536) rows ≤ 65535 :=
    apply_scroll_le _ _ (by omega)
  have hcol : apply_scroll (v.word % 65536) cols ≤ 65535 :=
    apply_scroll_le _ _ (by omega)
  simp only [Viewport.rect]
  rw [h]
  simp only [Nat.shiftRight_eq_div_pow] at hrow hcol ⊢
  simp only [Prod.mk.injEq]
  refine ⟨?_, ?_, ?_, ?_⟩ <;> omega

/-- `scroll` keeps the packed word inside 64 bits. -/
theorem scroll_word_lt (v : Viewport) (hv : v.word < 2 ^ 64) (rows cols : Int) :
    (v.scroll rows cols).word < 2 ^ 64 := by
  rw [scroll_word_eq v hv rows cols]
  have hrow : apply_scroll ((v.word >>> 16) % 65536) rows ≤ 65535 :=
    apply_scroll_le _ _ (by omega)
  have hcol : apply_scroll (v.word % 65536) cols ≤ 65535 :=
    apply_scroll_le _ _ (by omega)
  omega

/-- `scroll_top` is the first half of `rect`. -/
theorem scroll_top_eq_rect (v : Viewport) :
    v.scroll_top = (v.rect.1, v.rect.2.1) := rfl

/-- Scrolling by `delta` and back by `-delta` is the identity on an offset
as long as neither step saturates. -/
theorem apply_scroll_inverse (pos : Nat) (d : Int) (hpos : pos ≤ 65535)
    (h1 : 0 ≤ (pos : Int) + d) (h2 : (pos : Int) + d ≤ 65535) :
    apply_scroll (apply_scroll pos d) (-d) = pos := by
  unfold apply_scroll saturating_add_u16 saturating_sub_u16
  split_ifs <;> omega

/-! ### Claims C1–C5: the scroll-follow algorithm -/

/-- C1, counterexample to the claim as stated: at
`prev_top = cursor = 65535`, `length = 2` the cursor is visible
(`prev_top ≤ cursor < prev_top + length`), so the claim requires the result
`prev_top = 65535`; the `u16` wrap-around in `prev_top + length` makes the
code return `65534` instead. -/
theorem next_scroll_top_branch_spec_cex :
    65535 ≤ 65535 ∧ 65535 < 65535 + 2 ∧ next_scroll_top 65535 65535 2 ≠ 65535 := by
  decide

/-- C1 (amended): the three branch equations of the claim hold for all
`u16` inputs as long as the `u16` arithmetic does not wrap, i.e. when
`prev_top + length ≤ 65535` and not (`cursor = 65535` and `length = 0`). -/
theorem next_scroll_top_branch_spec (p c l : Nat) (hp : p < 65536)
    (hc : c < 65536) (hl : l < 65536) (hpl : p + l ≤ 65535)
    (hcl : ¬(c = 65535 ∧ l = 0)) :
    (c < p → next_scroll_top p c l = c) ∧
    (p + l ≤ c → next_scroll_top p c l = c + 1 - l) ∧
    (p ≤ c → c < p + l → next_scroll_top p c l = p) := by
  unfold next_scroll_top
  split_ifs <;> refine ⟨?_, ?_, ?_⟩ <;> intros <;> omega

/-- C1 witness: `prev_top = 0, cursor = 12, length = 10` falls in the third
branch of the claim and yields `12 + 1 - 10 = 3`. -/
theorem next_scroll_top_branch_spec_witness :
    next_scroll_top 0 12 10 = 12 + 1 - 10 :=
  (next_scroll_top_branch_spec 0 12 10 (by decide) (by decide) (by decide)
    (by decide) (by decide)).2.1 (by decide)

/-- C2, counterexample to the claim as stated: with `length = 65535 > 0`,
`prev_top = 1`, `cursor = 1` the code returns `3` (wrap-around in
`cursor + 1 - length`), which does not satisfy `t ≤ cursor`: the cursor is
not visible under the new top, and the window moved although the cursor was
already visible. -/
theorem next_scroll_top_visible_minimal_cex :
    0 < 65535 ∧ ¬(next_scroll_top 1 1 65535 ≤ 1) := by
  decide

/-- C2 (amended): when `length > 0` and `prev_top + length ≤ 65535` (no
`u16` wrap-around), the new top makes the cursor visible and, among all
tops that do, moves least from `prev_top`; in particular it does not move
at all when the cursor is already visible. -/
theorem next_scroll_top_visible_minimal (p c l : Nat) (hc : c < 65536)
    (hl : 0 < l) (hpl : p + l ≤ 65535) :
    next_scroll_top p c l ≤ c ∧ c < next_scroll_top p c l + l ∧
    (∀ t, t ≤ c → c < t + l →
      max (next_scroll_top p c l) p - min (next_scroll_top p c l) p
        ≤ max t p - min t p) := by
  unfold next_scroll_top
  split_ifs <;> refine ⟨by omega, by omega, fun t h1 h2 => by omega⟩

/-- C2 witness: `prev_top = 5, cursor = 2, length = 10`: the new top `2`
moves no further from `5` than the alternative top `2` does. -/
theorem next_scroll_top_visible_minimal_witness :
    max (next_scroll_top 5 2 10) 5 - min (next_scroll_top 5 2 10) 5
      ≤ max 2 5 - min 2 5 :=
  (next_scroll_top_visible_minimal 5 2 10 (by decide) (by decide)
    (by decide)).2.2 2 (by decide) (by decide)

/-- C3, counterexample to the claim as stated: the code does not compute
`cursor + 1 - length` in a widened domain.  At
`prev_top = 0, cursor = 65535, length = 0` the `u16` computation wraps to
`0` while the widened-and-clamped computation gives `65535`. -/
theorem core_arithmetic_no_overflow_cex :
    next_scroll_top 0 65535 0 ≠ next_scroll_top_wide 0 65535 0 := by
  decide

/-- C3 (amended): `Viewport::scroll`'s offset update really is saturating —
for every offset and every `i16` delta (including `-32768`) it equals the
ideal integer result clamped to `[0, 65535]` — and `next_scroll_top`
agrees with the spec's widened-and-clamped computation exactly when its
`u16` arithmetic does not wrap (`prev_top + length ≤ 65535` and not
(`cursor = 65535` and `length = 0`)). -/
theorem core_arithmetic_no_overflow :
    (∀ (pos : Nat) (d : Int), pos ≤ 65535 → -32768 ≤ d → d ≤ 32767 →
      (apply_scroll pos d : Int) = max 0 (min ((pos : Int) + d) 65535)) ∧
    (∀ p c l : Nat, p < 65536 → c < 65536 → l < 65536 → p + l ≤ 65535 →
      ¬(c = 65535 ∧ l = 0) → next_scroll_top p c l = next_scroll_top_wide p c l) := by
  constructor
  · intro pos d hpos h1 h2
    unfold apply_scroll saturating_add_u16 saturating_sub_u16
    split_ifs <;> omega
  · intro p c l hp hc hl hpl hne
    unfold next_scroll_top next_scroll_top_wide
    split_ifs <;> omega

/-- C3 witness: scrolling offset `3` by the extreme delta `-32768` clamps
to `0`, and `next_scroll_top 0 12 10` agrees with the widened computation. -/
theorem core_arithmetic_no_overflow_witness :
    (apply_scroll 3 (-32768) : Int) = max 0 (min ((3 : Int) + -32768) 65535) ∧
    next_scroll_top 4 12 10 = next_scroll_top_wide 4 12 10 :=
  ⟨core_arithmetic_no_overflow.1 3 (-32768) (by decide) (by decide) (by decide),
   core_arithmetic_no_overflow.2 4 12 10 (by decide) (by decide) (by decide)
     (by decide) (by decide)⟩

/-- C4, counterexample to the claim as stated: with `length = 0` and
`cursor ≥ prev_top` the second branch returns `cursor + 1 - 0 = cursor + 1`,
not `cursor`: `next_scroll_top 0 5 0 = 6`. -/
theorem next_scroll_top_zero_length_cex : next_scroll_top 0 5 0 ≠ 5 := by
  decide

/-- C4 (amended): with a zero-length window and `cursor ≥ prev_top` the new
top is `(cursor + 1) % 65536` — one past the cursor (wrapping to `0` at
`cursor = 65535`), not the cursor itself. -/
theorem next_scroll_top_zero_length (p c : Nat) (hp : p < 65536)
    (hc : c < 65536) (h : p ≤ c) :
    next_scroll_top p c 0 = (c + 1) % 65536 := by
  unfold next_scroll_top
  split_ifs <;> omega

/-- C4 witness: `next_scroll_top 0 5 0 = 6`. -/
theorem next_scroll_top_zero_length_witness :
    next_scroll_top 0 5 0 = (5 + 1) % 65536 :=
  next_scroll_top_zero_length 0 5 (by decide) (by decide) (by decide)

/-- C5, counterexample to the claim as stated: idempotence fails for
degenerate windows: `next_scroll_top 1 0 0 = 0` but
`next_scroll_top 0 0 0 = 1`. -/
theorem next_scroll_top_idempotent_cex :
    next_scroll_top (next_scroll_top 1 0 0) 0 0 ≠ next_scroll_top 1 0 0 := by
  decide

/-- C5 (amended): the scroll-follow function is idempotent whenever
`length > 0` and `prev_top + length ≤ 65535` (no `u16` wrap-around). -/
theorem next_scroll_top_idempotent (p c l : Nat) (hc : c < 65536)
    (hl : 0 < l) (hpl : p + l ≤ 65535) :
    next_scroll_top (next_scroll_top p c l) c l = next_scroll_top p c l := by
  unfold next_scroll_top
  split_ifs <;> omega

/-- C5 witness: idempotence at `prev_top = 0, cursor = 12, length = 10`. -/
theorem next_scroll_top_idempotent_witness :
    next_scroll_top (next_scroll_top 0 12 10) 12 10 = next_scroll_top 0 12 10 :=
  next_scroll_top_idempotent 0 12 10 (by decide) (by decide) (by decide)

/-! ### Claims C6–C9: the Viewport state -/

/-- C6 (confirmed): after `store(row, col, width, height)`, `rect()`
returns exactly `(row, col, width, height)` and `scroll_top()` returns
`(row, col)`: the packing in `store` and the unpacking in the accessors
agree field by field. -/
theorem store_accessors_consistent (v : Viewport) (row col width height : Nat)
    (hr : row < 65536) (hc : col < 65536) (hw : width < 65536)
    (hh : height < 65536) :
    (v.store row col width height).rect = (row, col, width, height) ∧
    (v.store row col width height).scroll_top = (row, col) := by
  have h := store_rect v row col width height hr hc hw hh
  refine ⟨h, ?_⟩
  rw [scroll_top_eq_rect, h]

/-- C6 witness: `store(4, 0, 80, 24)` gives `rect() = (4, 0, 80, 24)`,
`scroll_top() = (4, 0)` and `position() = (4, 0, 27, 79)`. -/
theorem store_accessors_consistent_witness :
    (Viewport.store ⟨0⟩ 4 0 80 24).rect = (4, 0, 80, 24) ∧
    (Viewport.store ⟨0⟩ 4 0 80 24).scroll_top = (4, 0) ∧
    (Viewport.store ⟨0⟩ 4 0 80 24).position = (4, 0, 27, 79) :=
  ⟨(store_accessors_consistent ⟨0⟩ 4 0 80 24 (by decide) (by decide)
      (by decide) (by decide)).1,
   (store_accessors_consistent ⟨0⟩ 4 0 80 24 (by decide) (by decide)
      (by decide) (by decide)).2,
   by decide⟩

/-- C7 (confirmed): for every `Viewport` state, `position()` returns a
non-inverted rectangle — `row_bottom ≥ row_top` and `col_bottom ≥ col_top`,
also for zero `width`/`height` — with
`row_bottom = max(row_top, (row_top +sat height) -sat 1)` and symmetrically
for columns. -/
theorem position_well_formed (v : Viewport) :
    v.position.1 ≤ v.position.2.2.1 ∧ v.position.2.1 ≤ v.position.2.2.2 ∧
    v.position = (v.rect.1, v.rect.2.1,
      max v.rect.1 (saturating_sub_u16 (saturating_add_u16 v.rect.1 v.rect.2.2.2) 1),
      max v.rect.2.1 (saturating_sub_u16 (saturating_add_u16 v.rect.2.1 v.rect.2.2.1) 1)) :=
  ⟨le_max_left _ _, le_max_left _ _, rfl⟩

/-- C9 (confirmed): `scroll(delta_rows, delta_cols)` changes only the two
top offsets — each by the saturating `apply_scroll` — while the `width` and
`height` read back by `rect()` are unchanged. -/
theorem scroll_frame_effect (v : Viewport) (hv : v.word < 2 ^ 64)
    (rows cols : Int) :
    (v.scroll rows cols).rect
      = (apply_scroll v.rect.1 rows, apply_scroll v.rect.2.1 cols,
         v.rect.2.2.1, v.rect.2.2.2) :=
  scroll_rect v hv rows cols

/-- C9 witness: scrolling the state `store(4, 7, 80, 24)` by `(10, -3)`. -/
theorem scroll_frame_effect_witness :
    (Viewport.scroll (Viewport.store ⟨0⟩ 4 7 80 24) 10 (-3)).rect
      = (apply_scroll (Viewport.store ⟨0⟩ 4 7 80 24).rect.1 10,
         apply_scroll (Viewport.store ⟨0⟩ 4 7 80 24).rect.2.1 (-3),
         (Viewport.store ⟨0⟩ 4 7 80 24).rect.2.2.1,
         (Viewport.store ⟨0⟩ 4 7 80 24).rect.2.2.2) :=
  scroll_frame_effect (Viewport.store ⟨0⟩ 4 7 80 24) (by decide) 10 (-3)

/-- C8 (confirmed): `scroll(delta, delta)` followed by
`scroll(-delta, -delta)` restores the original top offsets whenever neither
offset hits a saturation clamp, i.e. both ideal intermediate offsets stay
inside `[0, 65535]`. -/
theorem scroll_inverse (v : Viewport) (hv : v.word < 2 ^ 64) (d : Int)
    (hr0 : 0 ≤ (v.scroll_top.1 : Int) + d)
    (hr1 : (v.scroll_top.1 : Int) + d ≤ 65535)
    (hc0 : 0 ≤ (v.scroll_top.2 : Int) + d)
    (hc1 : (v.scroll_top.2 : Int) + d ≤ 65535) :
    ((v.scroll d d).scroll (-d) (-d)).scroll_top = v.scroll_top := by
  have h1 := scroll_rect v hv d d
  have hv' := scroll_word_lt v hv d d
  have h2 := scroll_rect (v.scroll d d) hv' (-d) (-d)
  have e1 : v.rect.1 ≤ 65535 := by simp only [Viewport.rect]; omega
  have e2 : v.rect.2.1 ≤ 65535 := by simp only [Viewport.rect]; omega
  simp only [scroll_top_eq_rect] at hr0 hr1 hc0 hc1 ⊢
  rw [h2, h1]
  simp only []
  exact Prod.ext (apply_scroll_inverse v.rect.1 d e1 hr0 hr1)
    (apply_scroll_inverse v.rect.2.1 d e2 hc0 hc1)

/-- C8 witness: from `store(10, 20, 80, 24)`, scroll by `(5, 5)` then
`(-5, -5)`; the top offsets `(10, 20)` come back. -/
theorem scroll_inverse_witness :
    (Viewport.scroll (Viewport.scroll (Viewport.store ⟨0⟩ 10 20 80 24) 5 5)
        (-5) (-5)).scroll_top
      = (Viewport.store ⟨0⟩ 10 20 80 24).scroll_top :=
  scroll_inverse (Viewport.store ⟨0⟩ 10 20 80 24) (by decide) 5
    (by decide) (by decide) (by decide) (by decide)

/-! ### Claim C10: cloning -/

/-- A heap of `AtomicU64` cells, one per live `Viewport`, addressed by cell
id.  `impl Clone for Viewport` loads the packed word and constructs a
*fresh* `AtomicU64` from it, so cloning allocates a new cell rather than
aliasing the old one; the heap makes that non-aliasing explicit. -/
structure Heap where
  cells : Nat → Nat

/-- Read the packed word of the viewport stored in cell `i`. -/
def Heap.load (h : Heap) (i : Nat) : Nat := h.cells i

/-- Overwrite cell `i` with word `u`. -/
def Heap.storeWord (h : Heap) (i : Nat) (u : Nat) : Heap :=
  ⟨fun j => if j = i then u else h.cells j⟩

/-- `impl Clone for Viewport` (lines 23–28): `let u = self.0.load(..);
Viewport(AtomicU64::new(u))` — the clone lives in a fresh cell holding a
snapshot of the original's word. -/
def clone_viewport (h : Heap) (i fresh : Nat) : Heap :=
  h.storeWord fresh (h.load i)

/-- `rect()` of the viewport in cell `i`. -/
def Heap.rectAt (h : Heap) (i : Nat) : Nat × Nat × Nat × Nat :=
  Viewport.rect ⟨h.load i⟩

/-- `store(..)` on the viewport in cell `i`. -/
def Heap.storeAt (h : Heap) (i : Nat) (row col width height : Nat) : Heap :=
  h.storeWord i (Viewport.store ⟨h.load i⟩ row col width height).word

/-- `scroll(..)` on the viewport in cell `i`. -/
def Heap.scrollAt (h : Heap) (i : Nat) (rows cols : Int) : Heap :=
  h.storeWord i (Viewport.scroll ⟨h.load i⟩ rows cols).word

/-- C10 (confirmed): a clone is an independent snapshot.  At the instant of
duplication the clone's queried values (`rect`, and with it `scroll_top`
and `position`, which are functions of the same packed word) equal the
original's; afterwards a `store` or `scroll` applied to either cell leaves
the word — hence every queried value — of the other cell unchanged. -/
theorem clone_independent (h : Heap) (i fresh : Nat) (hne : fresh ≠ i) :
    ((clone_viewport h i fresh).rectAt fresh = h.rectAt i ∧
     (clone_viewport h i fresh).load fresh = h.load i) ∧
    (∀ r c w ht,
      ((clone_viewport h i fresh).storeAt i r c w ht).load fresh
          = (clone_viewport h i fresh).load fresh ∧
      ((clone_viewport h i fresh).storeAt fresh r c w ht).load i
          = (clone_viewport h i fresh).load i) ∧
    (∀ dr dc,
      ((clone_viewport h i fresh).scrollAt i dr dc).load fresh
          = (clone_viewport h i fresh).load fresh ∧
      ((clone_viewport h i fresh).scrollAt fresh dr dc).load i
          = (clone_viewport h i fresh).load i) := by
  unfold clone_viewport Heap.storeAt Heap.scrollAt Heap.rectAt Heap.storeWord
    Heap.load
  refine ⟨⟨by simp, by simp⟩, fun r c w ht => ⟨?_, ?_⟩, fun dr dc => ⟨?_, ?_⟩⟩
    <;> simp [hne, Ne.symm hne]

/-- C10 witness: cell `0` holds `store(4, 0, 80, 24)`'s word, the clone goes
to fresh cell `1`; mutating either cell leaves the other's word intact. -/
theorem clone_independent_witness :
    ((clone_viewport ⟨fun _ => 19140298416324608⟩ 0 1).rectAt 1
        = Heap.rectAt ⟨fun _ => 19140298416324608⟩ 0 ∧
      (clone_viewport ⟨fun _ => 19140298416324608⟩ 0 1).load 1
        = Heap.load ⟨fun _ => 19140298416324608⟩ 0) ∧
    ((clone_viewport ⟨fun _ => 19140298416324608⟩ 0 1).storeAt 0 1 2 3 4).load 1
        = (clone_viewport ⟨fun _ => 19140298416324608⟩ 0 1).load 1 ∧
    ((clone_viewport ⟨fun _ => 19140298416324608⟩ 0 1).scrollAt 1 5 (-5)).load 0
        = (clone_viewport ⟨fun _ => 19140298416324608⟩ 0 1).load 0 :=
  ⟨(clone_independent ⟨fun _ => 19140298416324608⟩ 0 1 (by decide)).1,
   ((clone_independent ⟨fun _ => 19140298416324608⟩ 0 1 (by decide)).2.1 1 2 3 4).1,
   ((clone_independent ⟨fun _ => 19140298416324608⟩ 0 1 (by decide)).2.2 5 (-5)).2⟩
